import Mathlib

/-! Formal model of the runner-add-ssh provisioning tool: the privileged
command execution layer (src/adapters/process.js), the execution
orchestrator (src/core/execute/index.js) and the Windows sshd_config
renderer (src/core/execute/windows.js).  External process behaviour
(child processes, the terminal, per-stage executors) is abstracted into
explicit environment records; every function of the model mirrors the
control flow of the corresponding JavaScript function. -/

namespace RunnerAddSSH

/-- String helpers: computable, kernel-reducible counterparts of the
JavaScript string operations used by the source. -/
def charsHasLead : List Char → List Char → Bool
  | _, [] => true
  | [], _ :: _ => false
  | c :: cs, p :: ps => c == p && charsHasLead cs ps

/-- JavaScript String.prototype.includes on character lists. -/
def charsIncludes (pat : List Char) : List Char → Bool
  | [] => charsHasLead [] pat
  | c :: cs => charsHasLead (c :: cs) pat || charsIncludes pat cs

/-- JavaScript s.includes(pat). -/
def includesStr (s pat : String) : Bool :=
  charsIncludes pat.data s.data

/-- Whitespace characters trimmed by JavaScript String.prototype.trim
(the subset relevant to this program). -/
def isSpaceChar (c : Char) : Bool :=
  c == ' ' || c == '\t' || c == '\n' || c == '\r'

/-- JavaScript s.trim(). -/
def jsTrim (s : String) : String :=
  String.mk (((s.data.dropWhile isSpaceChar).reverse.dropWhile isSpaceChar).reverse)

/-- JavaScript s.split(sep) for a one-character separator, on character
lists. -/
def splitCharsOn (sep : Char) : List Char → List (List Char)
  | [] => [[]]
  | c :: cs =>
      let rest := splitCharsOn sep cs
      if c == sep then [] :: rest
      else
        match rest with
        | [] => [[c]]
        | r :: rs => (c :: r) :: rs

/-- JavaScript s.split(sep) for a one-character separator. -/
def splitStr (s : String) (sep : Char) : List String :=
  (splitCharsOn sep s.data).map String.mk

/-- JavaScript array.join(sep). -/
def joinWith (sep : String) : List String → String
  | [] => ""
  | [s] => s
  | s :: t :: rest => s ++ sep ++ joinWith sep (t :: rest)

/-- A JavaScript error value as observed by process.js: a message and an
optional code property (execSudo tests error.code against EACCES). -/
structure JsError where
  message : String
  code : Option String
deriving DecidableEq, Repr

/-- A ProcessError constructed by process.js carries only a message. -/
def procError (msg : String) : JsError := ⟨msg, none⟩

/-- Result object resolved by spawnAsync: stdout, stderr, exit code. -/
structure CommandResult where
  stdout : String
  stderr : String
  code : Nat
deriving DecidableEq, Repr

/-- Abstracted behaviour of one spawned child process: it either emits an
error event (spawn failure) or closes with an exit code and the output
it wrote to stdout and stderr. -/
inductive ChildBehavior where
  | spawnFail (msg : String)
  | closes (code : Nat) (out err : String)
deriving DecidableEq, Repr

/-- One process invocation issued by the runner: command, argument list,
and whether output was captured (stdio pipe) or inherited. -/
structure SpawnCall where
  cmd : String
  args : List String
  capture : Bool
deriving DecidableEq, Repr

/-- Logging events emitted by the runner (debug lines are omitted from
the model; warn and error levels are distinguished). -/
inductive LogEvent where
  | warn (msg : String)
  | logError (msg : String)
deriving DecidableEq, Repr

/-- Output of spawnAsync: the settled promise, the log events emitted,
and the spawn calls issued. -/
structure SpawnOut where
  result : Except JsError CommandResult
  logs : List LogEvent
  calls : List SpawnCall
deriving Repr

/-- Message of the ProcessError rejected on a spawn (error event)
failure. -/
def spawnFailMsg (command msg : String) : String :=
  "Failed to spawn " ++ command ++ ": " ++ msg

/-- Message of the ProcessError rejected on a non-zero exit: it carries
the command, the joined argument list, the exit code and the captured
stderr text. -/
def exitFailMsg (command : String) (args : List String) (code : Nat) (stderr : String) : String :=
  "Command failed: " ++ command ++ " " ++ joinWith " " args ++
    "\nExit code: " ++ toString code ++ "\nStderr: " ++ stderr

/-- Warning logged when a successful command produced stderr output. -/
def stderrWarnMsg (stderr : String) : String :=
  "Command produced stderr output: " ++ jsTrim stderr

/-- Model of spawnAsync (process.js lines 21-74).  With captureOutput
the accumulated stdout and stderr are the child's output, otherwise
stdio is inherited and both remain empty.  Exit code 0 resolves the
result, logging captured stderr as a warning when warnOnStderr is set
and the trimmed text is non-empty; a non-zero exit rejects with a
ProcessError carrying command, arguments, exit code and stderr; an
error event rejects with a spawn-failure ProcessError. -/
def spawnAsync (command : String) (args : List String) (captureOutput warnOnStderr : Bool)
    (beh : ChildBehavior) : SpawnOut :=
  let call : SpawnCall := ⟨command, args, captureOutput⟩
  match beh with
  | .spawnFail msg => ⟨.error (procError (spawnFailMsg command msg)), [], [call]⟩
  | .closes code out err =>
      let stdout := if captureOutput then out else ""
      let stderr := if captureOutput then err else ""
      if code = 0 then
        if warnOnStderr && jsTrim stderr != "" then
          ⟨.ok ⟨stdout, stderr, code⟩, [.warn (stderrWarnMsg stderr)], [call]⟩
        else
          ⟨.ok ⟨stdout, stderr, code⟩, [], [call]⟩
      else
        ⟨.error (procError (exitFailMsg command args code stderr)), [], [call]⟩

/-- Model of checkCommand (process.js lines 138-147): run `which`
(`where` on Windows) on the command and report whether it succeeded,
together with the spawn calls issued. -/
def checkCommand (command : String) (platformWin : Bool) (beh : ChildBehavior) :
    Bool × List SpawnCall :=
  let checkCmd := if platformWin then "where" else "which"
  let out := spawnAsync checkCmd [command] true true beh
  (match out.result with
   | .ok _ => true
   | .error _ => false,
   out.calls)

/-- Environment of one execSudo run: the platform, whether stdin is a
TTY, and the behaviour of each child process execSudo may spawn (the
direct invocation, the `which sudo` probe, the non-interactive
`sudo -n` retry, and the interactive sudo retry). -/
structure SudoEnv where
  platformWin : Bool
  stdinTTY : Bool
  direct : ChildBehavior
  whichSudo : ChildBehavior
  sudoN : ChildBehavior
  interactive : ChildBehavior
deriving Repr

/-- Error message thrown when sudo is not on the PATH. -/
def sudoUnavailableMsg : String :=
  "Command requires elevated privileges, but sudo is not available. Run as root or install/configure sudo."

/-- Error message thrown when non-interactive sudo is unavailable. -/
def nonInteractiveSudoMsg : String :=
  "Command requires sudo privileges, but non-interactive sudo is not available. Re-run with passwordless sudo or as root."

/-- Permission-denied signature test of execSudo (process.js lines
94-97): message contains EACCES, EPERM or Permission denied, or the
error's code property equals EACCES. -/
def isPermissionError (e : JsError) : Bool :=
  includesStr e.message "EACCES" || includesStr e.message "EPERM" ||
    includesStr e.message "Permission denied" || e.code == some "EACCES"

/-- Password/tty-required signature test of execSudo (process.js line
112). -/
def requiresPasswordMsg (m : String) : Bool :=
  includesStr m "password" || includesStr m "a terminal is required" || includesStr m "no tty"

/-- Model of execSudo (process.js lines 85-129), returning the settled
result and the sequence of spawn calls issued, in order. -/
def execSudo (args : List String) (env : SudoEnv) :
    Except JsError CommandResult × List SpawnCall :=
  let command := args.headD ""
  let cmdArgs := args.tail
  let first := spawnAsync command cmdArgs true true env.direct
  match first.result with
  | .ok r => (.ok r, first.calls)
  | .error e =>
    if isPermissionError e then
      if env.platformWin = false then
        let chk := checkCommand "sudo" env.platformWin env.whichSudo
        if chk.1 = false then
          (.error (procError sudoUnavailableMsg), first.calls ++ chk.2)
        else
          let second := spawnAsync "sudo" ("-n" :: args) true true env.sudoN
          match second.result with
          | .ok r => (.ok r, first.calls ++ chk.2 ++ second.calls)
          | .error e2 =>
            let requiresPassword := requiresPasswordMsg e2.message
            if env.stdinTTY = false || requiresPassword then
              (.error (procError nonInteractiveSudoMsg), first.calls ++ chk.2 ++ second.calls)
            else
              let third := spawnAsync "sudo" args false true env.interactive
              (third.result, first.calls ++ chk.2 ++ second.calls ++ third.calls)
      else
        (.error e, first.calls)
    else
      (.error e, first.calls)

/-- The settled result of the initial direct (non-escalated) spawn
performed by execSudo. -/
def directOutcome (args : List String) (env : SudoEnv) : Except JsError CommandResult :=
  (spawnAsync (args.headD "") args.tail true true env.direct).result

/-- Whether an execSudo outcome is a failure matching the
permission-denied signature. -/
def isPermFail : Except JsError CommandResult → Bool
  | .error e => isPermissionError e
  | .ok _ => false

/-- Whether `which sudo` succeeds in the given environment (the sudo
availability check of execSudo). -/
def sudoAvailable (env : SudoEnv) : Bool :=
  (checkCommand "sudo" env.platformWin env.whichSudo).1

/-- Model of canSudo (process.js lines 154-165): false on Windows, true
when getuid exists and returns 0. -/
def canSudo (platformWin : Bool) (uid : Option Nat) : Bool :=
  if platformWin then false
  else
    match uid with
    | some 0 => true
    | _ => false

/-- Model of hasSudoAccess (process.js lines 173-193): false on
Windows; true when already root; otherwise requires sudo on the PATH
and a successful non-interactive `sudo -n -v` probe. -/
def hasSudoAccess (platformWin : Bool) (uid : Option Nat) (whichSudo sudoNV : ChildBehavior) :
    Bool :=
  if platformWin then false
  else if canSudo platformWin uid then true
  else if (checkCommand "sudo" platformWin whichSudo).1 = false then false
  else
    match (spawnAsync "sudo" ["-n", "-v"] true true sudoNV).result with
    | .ok _ => true
    | .error _ => false

/-- Execution plan consumed by the orchestrator (os is the raw string
tested against "linux" and "windows"). -/
structure Plan where
  os : String
  needsInstall : Bool
  steps : List String
deriving DecidableEq, Repr

/-- The result accumulator built by execute (src/core/execute/index.js
lines 22-28); success is unset (false) until the end of the run. -/
structure ExecResult where
  installed : Bool
  configured : Bool
  keysSetup : Bool
  serviceStarted : Bool
  steps : List String
  success : Bool
deriving DecidableEq, Repr

/-- The freshly initialised result accumulator. -/
def initialResult : ExecResult := ⟨false, false, false, false, [], false⟩

/-- Observable events of one execute run: the hasSudoAccess capability
query, and the invocation of a stage function (tagged by the step name
the stage would record). -/
inductive Event where
  | sudoCheck
  | stageCall (name : String)
deriving DecidableEq, Repr

/-- Abstracted environment of one execute run: the result of the
hasSudoAccess query and, for each stage function of the selected OS
executor, either none (the stage returns) or the message of the error
it throws. -/
structure StageEnv where
  sudoAccess : Bool
  installErr : Option String
  configureErr : Option String
  keysErr : Option String
  startErr : Option String
deriving DecidableEq, Repr

/-- Output of the stage sequence: the final accumulator or, on a throw,
the failing stage's tag, the raw error message and the accumulator as
built at that moment; plus the stage-invocation events and every
accumulator state produced after the start state. -/
structure StagesOut where
  result : Except (String × String × ExecResult) ExecResult
  events : List Event
  states : List ExecResult
deriving Repr

/-- Stage completion update for the install stage: set the flag and
append the step name (one atomic mutation point, lines 46-47). -/
def markInstalled (r : ExecResult) : ExecResult :=
  { r with installed := true, steps := r.steps ++ ["installed"] }

/-- Stage completion update for the configure stage (lines 54-55). -/
def markConfigured (r : ExecResult) : ExecResult :=
  { r with configured := true, steps := r.steps ++ ["configured"] }

/-- Stage completion update for the key-setup stage (lines 61-62). -/
def markKeysSetup (r : ExecResult) : ExecResult :=
  { r with keysSetup := true, steps := r.steps ++ ["keys-setup"] }

/-- Stage completion update for the service-start stage (lines 68-69). -/
def markServiceStarted (r : ExecResult) : ExecResult :=
  { r with serviceStarted := true, steps := r.steps ++ ["service-started"] }

/-- The startSSH stage: invoke the stage function; on success mark the
accumulator, otherwise propagate the throw with the accumulator as it
was. -/
def runStart (env : StageEnv) (r : ExecResult) : StagesOut :=
  match env.startErr with
  | some msg => ⟨.error ("service-started", msg, r), [.stageCall "service-started"], []⟩
  | none =>
      let r1 := markServiceStarted r
      ⟨.ok r1, [.stageCall "service-started"], [r1]⟩

/-- The setupAuthorizedKeys stage followed by the rest of the
sequence. -/
def runKeys (env : StageEnv) (r : ExecResult) : StagesOut :=
  match env.keysErr with
  | some msg => ⟨.error ("keys-setup", msg, r), [.stageCall "keys-setup"], []⟩
  | none =>
      let r1 := markKeysSetup r
      let rest := runStart env r1
      ⟨rest.result, .stageCall "keys-setup" :: rest.events, r1 :: rest.states⟩

/-- The configureSSH stage followed by the rest of the sequence. -/
def runConfigure (env : StageEnv) (r : ExecResult) : StagesOut :=
  match env.configureErr with
  | some msg => ⟨.error ("configured", msg, r), [.stageCall "configured"], []⟩
  | none =>
      let r1 := markConfigured r
      let rest := runKeys env r1
      ⟨rest.result, .stageCall "configured" :: rest.events, r1 :: rest.states⟩

/-- The installSSH stage (skipped when needsInstall is false) followed
by the rest of the sequence. -/
def runInstall (env : StageEnv) (needsInstall : Bool) (r : ExecResult) : StagesOut :=
  if needsInstall then
    match env.installErr with
    | some msg => ⟨.error ("installed", msg, r), [.stageCall "installed"], []⟩
    | none =>
        let r1 := markInstalled r
        let rest := runConfigure env r1
        ⟨rest.result, .stageCall "installed" :: rest.events, r1 :: rest.states⟩
  else runConfigure env r

/-- Message of the error thrown before any stage when the Linux
elevation capability query fails (line 38). -/
def insufficientPrivilegesMsg : String :=
  "Insufficient privileges to configure SSH. Run as root or configure passwordless sudo."

/-- The outer catch of execute wraps any thrown error message (line
112). -/
def execFailedErr (msg : String) : JsError :=
  procError ("Execution failed: " ++ msg)

/-- Output of one execute run: the returned result or the wrapped
ProcessError together with the failing point's tag and the accumulator
ghost state, the observable events, and every accumulator state from
the initial one on. -/
structure ExecOut where
  result : Except (String × JsError × ExecResult) ExecResult
  events : List Event
  states : List ExecResult
deriving Repr

/-- Close a stage sequence as execute does: on success set
result.success and return; on a throw wrap the error message. -/
def finishStages (s : StagesOut) (preEvents : List Event) (r0 : ExecResult) : ExecOut :=
  match s.result with
  | .ok r =>
      let rF := { r with success := true }
      ⟨.ok rF, preEvents ++ s.events, r0 :: s.states ++ [rF]⟩
  | .error (tag, msg, r) =>
      ⟨.error (tag, execFailedErr msg, r), preEvents ++ s.events, r0 :: s.states⟩

/-- Model of execute (src/core/execute/index.js lines 21-114): on
"linux" run the capability query first and fail before any stage when
it is false, then run the stages; on "windows" run the stages; for any
other os run nothing and return the accumulator with success set. -/
def execute (plan : Plan) (env : StageEnv) : ExecOut :=
  let r0 := initialResult
  if plan.os == "linux" then
    if env.sudoAccess = false then
      ⟨.error ("sudo-check", execFailedErr insufficientPrivilegesMsg, r0), [.sudoCheck], [r0]⟩
    else
      finishStages (runInstall env plan.needsInstall r0) [.sudoCheck] r0
  else if plan.os == "windows" then
    finishStages (runInstall env plan.needsInstall r0) [] r0
  else
    let rF := { r0 with success := true }
    ⟨.ok rF, [], [r0, rF]⟩

/-- The ExecutionResult of a run: the returned result on success, or
the accumulator as built at the moment of failure. -/
def resultOf (out : ExecOut) : ExecResult :=
  match out.result with
  | .ok r => r
  | .error (_, _, r) => r

/-- The full ordered step list, with "installed" present only when the
plan requires installation. -/
def expectedSteps (needsInstall : Bool) : List String :=
  (if needsInstall then ["installed"] else []) ++ ["configured", "keys-setup", "service-started"]

/-- Boolean list-starts-with-list test (first argument an initial
segment of the second). -/
def listLE : List String → List String → Bool
  | [], _ => true
  | _ :: _, [] => false
  | a :: as, b :: bs => a == b && listLE as bs

/-- Agreement between the boolean stage flags of an accumulator state
and membership of the corresponding step names in its step list. -/
def flagsAgree (r : ExecResult) : Prop :=
  (r.installed = true ↔ "installed" ∈ r.steps) ∧
  (r.configured = true ↔ "configured" ∈ r.steps) ∧
  (r.keysSetup = true ↔ "keys-setup" ∈ r.steps) ∧
  (r.serviceStarted = true ↔ "service-started" ∈ r.steps)

instance (r : ExecResult) : Decidable (flagsAgree r) := by
  unfold flagsAgree
  infer_instance

/-- Configuration record as consumed by the Windows executor: the
allowUsers setting reaches generateSSHDConfig as a single string that
is split on spaces. -/
structure Config where
  port : Nat
  mode : String
  allowUsers : String
  defaultCwd : String
  disableForceCwd : Bool
  cwd : String
deriving DecidableEq, Repr

/-- Model of generateSSHDConfig (src/core/execute/windows.js lines
308-345): split allowUsers on spaces, drop entries that are empty after
trimming, and render the fixed sshd_config template. -/
def generateSSHDConfig (config : Config) : String :=
  let allowUsersArr := (splitStr config.allowUsers ' ').filter (fun u => jsTrim u != "")
  let forceCommandLine :=
    if !config.disableForceCwd then
      "ForceCommand cmd /c \"cd /d " ++ (config.defaultCwd.replace "/" "\\\\") ++ " && cmd\""
    else ""
  "# SSH Server Configuration - Generated by runner-add-ssh\n" ++
  "# Port\n" ++
  "Port " ++ toString config.port ++ "\n" ++
  "\n" ++
  "# Authentication\n" ++
  "PubkeyAuthentication yes\n" ++
  "PasswordAuthentication no\n" ++
  "ChallengeResponseAuthentication no\n" ++
  "\n" ++
  "# Security\n" ++
  "PermitRootLogin no\n" ++
  "StrictModes yes\n" ++
  "MaxAuthTries 3\n" ++
  "MaxSessions 10\n" ++
  "\n" ++
  "# Allowed users\n" ++
  "AllowUsers " ++ joinWith " " allowUsersArr ++ "\n" ++
  "\n" ++
  "# Windows-specific\n" ++
  "Subsystem sftp sftp-server.exe\n" ++
  "\n" ++
  "# Logging\n" ++
  "SyslogFacility AUTH\n" ++
  "LogLevel INFO\n" ++
  "\n" ++
  "# Default working directory\n" ++
  forceCommandLine ++ "\n" ++
  "\n" ++
  "# Performance\n" ++
  "UseDNS no\n"

/-- Modelled from the spec: the Config.allowUsers field is declared as
a sequence of strings in the data model, while the renderer in the
source consumes a single string; the conversion (performed by the
parseInput collaborator, whose source is not part of the core) is
modelled as space-joining the sequence. -/
def allowUsersField (users : List String) : String :=
  joinWith " " users

/-- Environment exhibiting the behaviour of execSudo when the
non-interactive sudo retry fails for a password reason while stdin is
an interactive terminal: platform is not Windows, the direct call
fails with Permission denied, sudo is on the PATH, `sudo -n` exits 1
complaining that a password is required, and stdin is a TTY. -/
def envPasswordTTY : SudoEnv :=
  ⟨false, true, .closes 1 "" "Permission denied", .closes 0 "/usr/bin/sudo" "",
    .closes 1 "" "sudo: a password is required", .closes 0 "" ""⟩

/-- The allowUsers sequence of the rendering example. -/
def allowUsersSeqC3 : List String := ["alice", "", " ", "bob"]

/-- Config of the rendering example, with the allowUsers sequence in
its space-joined string representation. -/
def configC3 : Config :=
  ⟨2222, "auto", allowUsersField allowUsersSeqC3, "/workspace", false, "/workspace"⟩

/-- Decidable equality of settled execSudo results. -/
def exceptResultDecEq : DecidableEq (Except JsError CommandResult) := fun a b =>
  match a, b with
  | .error x, .error y =>
      match decEq x y with
      | isTrue h => isTrue (congrArg Except.error h)
      | isFalse h => isFalse (fun hh => h (Except.error.inj hh))
  | .ok x, .ok y =>
      match decEq x y with
      | isTrue h => isTrue (congrArg Except.ok h)
      | isFalse h => isFalse (fun hh => h (Except.ok.inj hh))
  | .error _, .ok _ => isFalse (fun hh => Except.noConfusion hh)
  | .ok _, .error _ => isFalse (fun hh => Except.noConfusion hh)

instance : DecidableEq (Except JsError CommandResult) := exceptResultDecEq

theorem spawnAsync_calls (c : String) (a : List String) (cap w : Bool) (beh : ChildBehavior) :
    (spawnAsync c a cap w beh).calls = [⟨c, a, cap⟩] := by
  cases beh
  · rfl
  · unfold spawnAsync
    dsimp only
    (repeat' split) <;> rfl

theorem checkCommand_calls (cmd : String) (pw : Bool) (beh : ChildBehavior) :
    (checkCommand cmd pw beh).2 = [⟨if pw then "where" else "which", [cmd], true⟩] := by
  unfold checkCommand
  dsimp only
  rw [spawnAsync_calls]

/-- C7: a single direct invocation that exits 0 resolves to a
CommandResult with exit code 0, logging captured stderr only as a
warning when its trimmed text is non-empty, and issues exactly one
spawn (no retry); a non-zero exit rejects with a ProcessError whose
message carries the command, the joined argument list, the exit code
and the captured stderr, again after exactly one spawn. -/
theorem single_invocation_result (command : String) (args : List String) (out err : String)
    (code : Nat) (hcode : code ≠ 0) :
    (spawnAsync command args true true (.closes 0 out err)).result = Except.ok ⟨out, err, 0⟩ ∧
    (spawnAsync command args true true (.closes 0 out err)).logs =
      (if jsTrim err != "" then [LogEvent.warn (stderrWarnMsg err)] else []) ∧
    (spawnAsync command args true true (.closes 0 out err)).calls = [⟨command, args, true⟩] ∧
    (spawnAsync command args true true (.closes code out err)).result =
      Except.error (procError (exitFailMsg command args code err)) ∧
    (spawnAsync command args true true (.closes code out err)).calls = [⟨command, args, true⟩] := by
  refine ⟨?_, ?_, ?_, ?_, ?_⟩
  · unfold spawnAsync; dsimp only; simp only [eq_self_iff_true, if_true]; split <;> rfl
  · unfold spawnAsync; dsimp only; simp only [eq_self_iff_true, if_true]; split <;> simp_all
  · unfold spawnAsync; dsimp only; simp only [eq_self_iff_true, if_true]; split <;> rfl
  · unfold spawnAsync; dsimp only; simp [hcode]
  · unfold spawnAsync; dsimp only; simp [hcode]

theorem single_invocation_result_witness :
    (spawnAsync "ls" ["-la"] true true (.closes 0 "files" " notice ")).result =
      Except.ok ⟨"files", " notice ", 0⟩ ∧
    (spawnAsync "ls" ["-la"] true true (.closes 0 "files" " notice ")).logs =
      (if jsTrim " notice " != "" then [LogEvent.warn (stderrWarnMsg " notice ")] else []) ∧
    (spawnAsync "ls" ["-la"] true true (.closes 0 "files" " notice ")).calls =
      [⟨"ls", ["-la"], true⟩] ∧
    (spawnAsync "ls" ["-la"] true true (.closes 2 "files" " notice ")).result =
      Except.error (procError (exitFailMsg "ls" ["-la"] 2 " notice ")) ∧
    (spawnAsync "ls" ["-la"] true true (.closes 2 "files" " notice ")).calls =
      [⟨"ls", ["-la"], true⟩] :=
  single_invocation_result "ls" ["-la"] "files" " notice " 2 (by decide)

/-- C6: when the direct invocation fails with a permission-denied
signature on a Windows target, execSudo rethrows the original error
unchanged and issues no further spawn (no escalation retry). -/
theorem windows_perm_denied_rethrows (args : List String) (env : SudoEnv)
    (hwin : env.platformWin = true)
    (hperm : isPermFail (directOutcome args env) = true) :
    (execSudo args env).1 = directOutcome args env ∧
    (execSudo args env).2 = [⟨args.headD "", args.tail, true⟩] := by
  unfold directOutcome at hperm ⊢
  cases ho : (spawnAsync (args.headD "") args.tail true true env.direct).result with
  | ok r => rw [ho] at hperm; simp [isPermFail] at hperm
  | error e =>
    rw [ho] at hperm
    simp only [isPermFail] at hperm
    unfold execSudo
    dsimp only
    rw [ho, spawnAsync_calls]
    simp [hperm, hwin]

theorem windows_perm_denied_rethrows_witness :
    (execSudo ["netsh", "advfirewall"]
        ⟨true, false, .spawnFail "EACCES", .closes 0 "" "", .closes 0 "" "", .closes 0 "" ""⟩).1 =
      directOutcome ["netsh", "advfirewall"]
        ⟨true, false, .spawnFail "EACCES", .closes 0 "" "", .closes 0 "" "", .closes 0 "" ""⟩ ∧
    (execSudo ["netsh", "advfirewall"]
        ⟨true, false, .spawnFail "EACCES", .closes 0 "" "", .closes 0 "" "", .closes 0 "" ""⟩).2 =
      [⟨"netsh", ["advfirewall"], true⟩] :=
  windows_perm_denied_rethrows ["netsh", "advfirewall"]
    ⟨true, false, .spawnFail "EACCES", .closes 0 "" "", .closes 0 "" "", .closes 0 "" ""⟩
    rfl (by decide)

/-- C5: when the direct invocation fails with a permission-denied
signature on a non-Windows target, execSudo first probes the PATH for
sudo (the `which sudo` call directly follows the direct call); if the
probe fails it stops with the distinct elevated-privileges-unavailable
error and spawns nothing else, and otherwise the next spawn is exactly
one non-interactive `sudo -n` retry, after which at most one
interactive (output-not-captured) sudo spawn can follow. -/
theorem nonwin_perm_denied_escalation (args : List String) (env : SudoEnv)
    (hwin : env.platformWin = false)
    (hperm : isPermFail (directOutcome args env) = true) :
    ∃ t, (execSudo args env).2 =
        ⟨args.headD "", args.tail, true⟩ :: ⟨"which", ["sudo"], true⟩ :: t ∧
      (sudoAvailable env = false →
        (execSudo args env).1 = Except.error (procError sudoUnavailableMsg) ∧ t = []) ∧
      (sudoAvailable env = true →
        ∃ r, t = ⟨"sudo", "-n" :: args, true⟩ :: r ∧
          (r = [] ∨ r = [⟨"sudo", args, false⟩])) := by
  unfold directOutcome at hperm
  cases ho : (spawnAsync (args.headD "") args.tail true true env.direct).result with
  | ok r => rw [ho] at hperm; simp [isPermFail] at hperm
  | error e =>
    rw [ho] at hperm
    simp only [isPermFail] at hperm
    simp only [List.headD_eq_head?_getD] at ho
    cases hav : (checkCommand "sudo" false env.whichSudo).1 with
    | false =>
      refine ⟨[], ?_, ?_, ?_⟩
      · simp [execSudo, ho, hperm, hwin, hav, spawnAsync_calls, checkCommand_calls]
      · intro hv
        exact ⟨by simp [execSudo, ho, hperm, hwin, hav], rfl⟩
      · intro hv
        unfold sudoAvailable at hv
        rw [hwin, hav] at hv
        cases hv
    | true =>
      have hcontra : ¬ sudoAvailable env = false := by
        unfold sudoAvailable
        rw [hwin, hav]
        simp
      cases h2 : (spawnAsync "sudo" ("-n" :: args) true true env.sudoN).result with
      | ok r =>
        refine ⟨[⟨"sudo", "-n" :: args, true⟩], ?_, fun hv => absurd hv hcontra, ?_⟩
        · simp [execSudo, ho, hperm, hwin, hav, h2, spawnAsync_calls, checkCommand_calls]
        · exact fun _ => ⟨[], rfl, Or.inl rfl⟩
      | error e2 =>
        cases htty : env.stdinTTY with
        | false =>
          refine ⟨[⟨"sudo", "-n" :: args, true⟩], ?_, fun hv => absurd hv hcontra, ?_⟩
          · simp [execSudo, ho, hperm, hwin, hav, h2, htty, spawnAsync_calls, checkCommand_calls]
          · exact fun _ => ⟨[], rfl, Or.inl rfl⟩
        | true =>
          cases hrp : requiresPasswordMsg e2.message with
          | true =>
            refine ⟨[⟨"sudo", "-n" :: args, true⟩], ?_, fun hv => absurd hv hcontra, ?_⟩
            · simp [execSudo, ho, hperm, hwin, hav, h2, htty, hrp, spawnAsync_calls,
                checkCommand_calls]
            · exact fun _ => ⟨[], rfl, Or.inl rfl⟩
          | false =>
            refine ⟨[⟨"sudo", "-n" :: args, true⟩, ⟨"sudo", args, false⟩], ?_,
              fun hv => absurd hv hcontra, ?_⟩
            · simp [execSudo, ho, hperm, hwin, hav, h2, htty, hrp, spawnAsync_calls,
                checkCommand_calls]
            · exact fun _ => ⟨[⟨"sudo", args, false⟩], rfl, Or.inr rfl⟩

theorem nonwin_perm_denied_escalation_witness :
    ∃ t, (execSudo ["apt-get", "update"]
        ⟨false, true, .closes 1 "" "Permission denied", .closes 0 "/usr/bin/sudo" "",
          .closes 1 "" "sudo: three incorrect attempts", .closes 0 "" ""⟩).2 =
        ⟨"apt-get", ["update"], true⟩ :: ⟨"which", ["sudo"], true⟩ :: t ∧
      (sudoAvailable ⟨false, true, .closes 1 "" "Permission denied", .closes 0 "/usr/bin/sudo" "",
          .closes 1 "" "sudo: three incorrect attempts", .closes 0 "" ""⟩ = false →
        (execSudo ["apt-get", "update"]
          ⟨false, true, .closes 1 "" "Permission denied", .closes 0 "/usr/bin/sudo" "",
            .closes 1 "" "sudo: three incorrect attempts", .closes 0 "" ""⟩).1 =
          Except.error (procError sudoUnavailableMsg) ∧ t = []) ∧
      (sudoAvailable ⟨false, true, .closes 1 "" "Permission denied", .closes 0 "/usr/bin/sudo" "",
          .closes 1 "" "sudo: three incorrect attempts", .closes 0 "" ""⟩ = true →
        ∃ r, t = ⟨"sudo", "-n" :: ["apt-get", "update"], true⟩ :: r ∧
          (r = [] ∨ r = [⟨"sudo", ["apt-get", "update"], false⟩])) :=
  nonwin_perm_denied_escalation ["apt-get", "update"]
    ⟨false, true, .closes 1 "" "Permission denied", .closes 0 "/usr/bin/sudo" "",
      .closes 1 "" "sudo: three incorrect attempts", .closes 0 "" ""⟩
    rfl (by decide)

/-- C1: in the password-with-TTY environment the premises of the claim
hold (non-Windows, permission-denied direct failure, `sudo -n` failure
message matching "password", stdin attached to a TTY), yet execSudo
throws the non-interactive-sudo-unavailable error and never spawns an
interactive (output-not-captured) sudo: the condition at process.js
line 114 throws whenever the message matches a password/tty reason,
so the interactive fallback of lines 118-119 is unreachable in exactly
the situation its debug message describes. -/
theorem password_tty_no_interactive_fallback :
    envPasswordTTY.platformWin = false ∧
    envPasswordTTY.stdinTTY = true ∧
    isPermFail (directOutcome ["apt-get", "update"] envPasswordTTY) = true ∧
    requiresPasswordMsg
      (exitFailMsg "sudo" ["-n", "apt-get", "update"] 1 "sudo: a password is required") = true ∧
    (execSudo ["apt-get", "update"] envPasswordTTY).1 =
      Except.error (procError nonInteractiveSudoMsg) ∧
    (execSudo ["apt-get", "update"] envPasswordTTY).2 =
      [⟨"apt-get", ["update"], true⟩, ⟨"which", ["sudo"], true⟩,
        ⟨"sudo", ["-n", "apt-get", "update"], true⟩] := by
  refine ⟨rfl, rfl, by decide, by decide, ?_, ?_⟩ <;> decide

/-- C3: for the allowUsers sequence ["alice", "", " ", "bob"] the
renderer drops the empty and whitespace-only entries, preserves the
order of the remaining entries, and the generated configuration
document contains the line "AllowUsers alice bob". -/
theorem allow_users_line_filters_blanks :
    (splitStr configC3.allowUsers ' ').filter (fun u => jsTrim u != "") = ["alice", "bob"] ∧
    ((splitStr (generateSSHDConfig configC3) '\n').contains "AllowUsers alice bob") = true := by
  constructor
  · rfl
  · rfl

/-- C8: rendering the configuration document is a deterministic pure
function of the Config value: two runs on identical Config values
produce byte-identical text. -/
theorem render_deterministic (c1 c2 : Config) (h : c1 = c2) :
    generateSSHDConfig c1 = generateSSHDConfig c2 := by
  rw [h]

theorem render_deterministic_witness :
    generateSSHDConfig ⟨2222, "auto", "ci", "/workspace", false, "/workspace"⟩ =
      generateSSHDConfig ⟨2222, "auto", "ci", "/workspace", false, "/workspace"⟩ :=
  render_deterministic ⟨2222, "auto", "ci", "/workspace", false, "/workspace"⟩
    ⟨2222, "auto", "ci", "/workspace", false, "/workspace"⟩ rfl

set_option maxHeartbeats 3200000 in
/-- C2: in every run of execute, the step list of the ExecutionResult
(returned on success, or as built at the moment of failure) is an
initial segment of the expected stage-name sequence in which
"installed" occurs only when the plan requires installation; no name
appears twice, each name is present only if its stage function
returned successfully, and on failure the failing stage's name is not
in the list. -/
theorem execute_steps_invariant (plan : Plan) (env : StageEnv) :
    (∃ t, (resultOf (execute plan env)).steps ++ t = expectedSteps plan.needsInstall) ∧
    (resultOf (execute plan env)).steps.Nodup ∧
    ("installed" ∈ (resultOf (execute plan env)).steps →
      plan.needsInstall = true ∧ env.installErr = none) ∧
    ("configured" ∈ (resultOf (execute plan env)).steps → env.configureErr = none) ∧
    ("keys-setup" ∈ (resultOf (execute plan env)).steps → env.keysErr = none) ∧
    ("service-started" ∈ (resultOf (execute plan env)).steps → env.startErr = none) ∧
    (∀ tag e r, (execute plan env).result = Except.error (tag, e, r) → tag ∉ r.steps) := by
  rcases plan with ⟨os, ni, ps⟩
  rcases env with ⟨sa, ie, ce, ke, se⟩
  cases hos1 : os == "linux" with
  | false =>
    cases hos2 : os == "windows" with
    | false => simp_all [execute, resultOf, expectedSteps, initialResult]
    | true =>
      cases ni <;> rcases ie with _ | m1 <;> rcases ce with _ | m2 <;>
        rcases ke with _ | m3 <;> rcases se with _ | m4 <;>
        simp_all [execute, finishStages, runInstall, runConfigure, runKeys, runStart, resultOf,
          expectedSteps, markInstalled, markConfigured, markKeysSetup, markServiceStarted,
          initialResult]
  | true =>
    cases sa with
    | false => simp_all [execute, resultOf, expectedSteps, initialResult]
    | true =>
      cases ni <;> rcases ie with _ | m1 <;> rcases ce with _ | m2 <;>
        rcases ke with _ | m3 <;> rcases se with _ | m4 <;>
        simp_all [execute, finishStages, runInstall, runConfigure, runKeys, runStart, resultOf,
          expectedSteps, markInstalled, markConfigured, markKeysSetup, markServiceStarted,
          initialResult]

theorem execute_steps_invariant_witness :
    (∃ t, (resultOf (execute ⟨"linux", true, []⟩ ⟨true, none, none, some "kaboom", none⟩)).steps
        ++ t = expectedSteps (⟨"linux", true, []⟩ : Plan).needsInstall) ∧
    (resultOf (execute ⟨"linux", true, []⟩ ⟨true, none, none, some "kaboom", none⟩)).steps.Nodup ∧
    ("installed" ∈ (resultOf (execute ⟨"linux", true, []⟩
        ⟨true, none, none, some "kaboom", none⟩)).steps →
      (⟨"linux", true, []⟩ : Plan).needsInstall = true ∧
        (⟨true, none, none, some "kaboom", none⟩ : StageEnv).installErr = none) ∧
    ("configured" ∈ (resultOf (execute ⟨"linux", true, []⟩
        ⟨true, none, none, some "kaboom", none⟩)).steps →
      (⟨true, none, none, some "kaboom", none⟩ : StageEnv).configureErr = none) ∧
    ("keys-setup" ∈ (resultOf (execute ⟨"linux", true, []⟩
        ⟨true, none, none, some "kaboom", none⟩)).steps →
      (⟨true, none, none, some "kaboom", none⟩ : StageEnv).keysErr = none) ∧
    ("service-started" ∈ (resultOf (execute ⟨"linux", true, []⟩
        ⟨true, none, none, some "kaboom", none⟩)).steps →
      (⟨true, none, none, some "kaboom", none⟩ : StageEnv).startErr = none) ∧
    (∀ tag e r, (execute ⟨"linux", true, []⟩
        ⟨true, none, none, some "kaboom", none⟩).result = Except.error (tag, e, r) →
      tag ∉ r.steps) :=
  execute_steps_invariant ⟨"linux", true, []⟩ ⟨true, none, none, some "kaboom", none⟩

/-- C4: on a plan whose os is linux the elevation capability query is
the first observable event of execute (it precedes every stage
invocation), and when it reports no access execute fails with only
that event recorded: no stage function is invoked and the step list at
the failure is empty. -/
theorem execute_linux_sudo_gate (plan : Plan) (env : StageEnv) (hos : plan.os = "linux") :
    (execute plan env).events.head? = some Event.sudoCheck ∧
    (env.sudoAccess = false →
      (execute plan env).events = [Event.sudoCheck] ∧
      ∃ tag e r, (execute plan env).result = Except.error (tag, e, r) ∧ r.steps = []) := by
  rcases plan with ⟨os, ni, ps⟩
  dsimp only at hos
  subst hos
  cases hsa : env.sudoAccess with
  | false =>
    refine ⟨?_, fun _ => ⟨?_, "sudo-check", execFailedErr insufficientPrivilegesMsg,
      initialResult, ?_, rfl⟩⟩ <;>
      simp [execute, hsa, initialResult]
  | true =>
    refine ⟨?_, fun hv => Bool.noConfusion hv⟩
    cases hr : (runInstall env ni initialResult).result with
    | ok r => simp [execute, hsa, finishStages, hr]
    | error er => simp [execute, hsa, finishStages, hr]

theorem execute_linux_sudo_gate_witness :
    (execute ⟨"linux", false, []⟩ ⟨false, none, none, none, none⟩).events.head? =
      some Event.sudoCheck ∧
    ((⟨false, none, none, none, none⟩ : StageEnv).sudoAccess = false →
      (execute ⟨"linux", false, []⟩ ⟨false, none, none, none, none⟩).events =
        [Event.sudoCheck] ∧
      ∃ tag e r, (execute ⟨"linux", false, []⟩
          ⟨false, none, none, none, none⟩).result = Except.error (tag, e, r) ∧
        r.steps = []) :=
  execute_linux_sudo_gate ⟨"linux", false, []⟩ ⟨false, none, none, none, none⟩ rfl

/-- C9: on a plan whose os is neither linux nor windows, execute
performs no elevation check and invokes no stage function (no events),
yet returns success with an empty step list and all four stage flags
false. -/
theorem execute_unknown_os_succeeds (plan : Plan) (env : StageEnv)
    (h1 : plan.os ≠ "linux") (h2 : plan.os ≠ "windows") :
    execute plan env =
      ⟨Except.ok ⟨false, false, false, false, [], true⟩, [],
        [⟨false, false, false, false, [], false⟩, ⟨false, false, false, false, [], true⟩]⟩ := by
  have b1 : (plan.os == "linux") = false := beq_eq_false_iff_ne.mpr h1
  have b2 : (plan.os == "windows") = false := beq_eq_false_iff_ne.mpr h2
  simp [execute, b1, b2, initialResult]

theorem execute_unknown_os_succeeds_witness :
    execute ⟨"darwin", true, []⟩ ⟨false, none, none, none, none⟩ =
      ⟨Except.ok ⟨false, false, false, false, [], true⟩, [],
        [⟨false, false, false, false, [], false⟩, ⟨false, false, false, false, [], true⟩]⟩ :=
  execute_unknown_os_succeeds ⟨"darwin", true, []⟩ ⟨false, none, none, none, none⟩
    (by decide) (by decide)

set_option maxHeartbeats 3200000 in
/-- C10: at every observable point of an execute run (every state the
result accumulator passes through, and the final or at-failure result)
each boolean stage flag agrees with membership of the corresponding
step name in the step list. -/
theorem execute_flags_match_steps (plan : Plan) (env : StageEnv) :
    (∀ r ∈ (execute plan env).states, flagsAgree r) ∧
    flagsAgree (resultOf (execute plan env)) := by
  rcases plan with ⟨os, ni, ps⟩
  rcases env with ⟨sa, ie, ce, ke, se⟩
  cases hos1 : os == "linux" with
  | false =>
    cases hos2 : os == "windows" with
    | false => simp_all [execute, resultOf, flagsAgree, initialResult]
    | true =>
      cases ni <;> rcases ie with _ | m1 <;> rcases ce with _ | m2 <;>
        rcases ke with _ | m3 <;> rcases se with _ | m4 <;>
        simp_all [execute, finishStages, runInstall, runConfigure, runKeys, runStart, resultOf,
          flagsAgree, markInstalled, markConfigured, markKeysSetup, markServiceStarted,
          initialResult]
  | true =>
    cases sa with
    | false => simp_all [execute, resultOf, flagsAgree, initialResult]
    | true =>
      cases ni <;> rcases ie with _ | m1 <;> rcases ce with _ | m2 <;>
        rcases ke with _ | m3 <;> rcases se with _ | m4 <;>
        simp_all [execute, finishStages, runInstall, runConfigure, runKeys, runStart, resultOf,
          flagsAgree, markInstalled, markConfigured, markKeysSetup, markServiceStarted,
          initialResult]

theorem execute_flags_match_steps_witness :
    flagsAgree (resultOf (execute ⟨"windows", true, []⟩ ⟨false, none, some "refused", none, none⟩)) :=
  (execute_flags_match_steps ⟨"windows", true, []⟩ ⟨false, none, some "refused", none, none⟩).2

end RunnerAddSSH
